import Mathlib

/-!
Verification development for the cross-repo-cherrypick-action repository.

The TypeScript sources are shallowly embedded:
* `src/git.ts` (class `Git`): each git-command wrapper becomes a pure
  function from the command's exit code (and, for `rev-list`, its stdout
  lines) to `Except`, mirroring the throw/return structure of the source.
* `src/git.ts` (class `Github`): `isSquashed` over an abstract oracle
  (`World.assoc`, `World.parent`, `World.parentCount`) standing for the
  repository-host's commit/association data.
* `src/utils.ts`: `replacePlaceholders`, with JavaScript's
  `String.replace(string, string)` modelled by `listReplaceFirst`
  (replace the first occurrence only).
* `src/backport.ts` (class `CherryPick`): `CherryPick.run` as a pure
  function from configuration, pull-request snapshot and a `World` of
  external-call results to a `RunResult` trace recording the comments
  posted, the git fetches performed, which per-target sub-steps ran, the
  commit list passed to cherry-pick, and the action outputs emitted.

External effects (comments, fetches, outputs) are recorded in the
`RunResult` trace; each comment is tagged with the source call site that
posted it.
-/

/-- The configured merge-commit policy (`Config.commits.merge_commits`). -/
inductive Policy where
  | fail
  | skip
deriving DecidableEq

/-- The `MergeStrategy` enumeration imported by `backport.ts` from
`./github`. -/
inductive MergeStrategy where
  | squashed
  | rebased
  | mergecommit
  | unknown
deriving DecidableEq

/-- The call site in `CherryPick.run` that posted a comment. -/
inductive CKind where
  | notMerged
  | mergeCommitsPolicy
  | addRemoteFail
  | fetchTargetFail
  | checkoutFail
  | cherryPickFail
  | pushFail
  | prCreateFail
  | catchError
  | success
deriving DecidableEq

/-- Errors thrown by the `Git` driver: `GitRefNotFoundError` or a plain
`Error`.  Both are `Error` instances in the source. -/
inductive GErr where
  | refNotFound (msg : String) (ref : String)
  | generic (msg : String)
deriving DecidableEq

def GErr.message : GErr → String
  | .refNotFound m _ => m
  | .generic m => m

/-- The `PullRequest` snapshot (`src/git.ts`, type `PullRequest`),
restricted to the fields `CherryPick.run` reads.  `labels` is the list of
label names, `user` the author login. -/
structure PullReq where
  number : Nat
  title : String
  body : Option String
  merge_commit_sha : Option String
  headSha : String
  baseSha : String
  baseRef : String
  commits : Nat
  labels : List String
  user : String

/-- The `Config` type of `src/backport.ts` (CherryPick version). -/
structure Config where
  pull_title : String
  pull_description : String
  merge_commits : Policy
  upstream_repo : String
  branch_map : List (String × String)
  trigger_label : Option String

/-- The run's external world: the host's answers and the exit codes of the
git commands the run would issue.  `parent` is the first-parent function on
commit hashes, `parentCount` the number of parents, `assoc` whether the
host reports a hash as associated with the pull request
(`isShaAssociatedWithPullRequest`).  `revListLines` are the stdout lines of
`git rev-list --merges`. -/
structure World where
  isMerged : Bool
  commitShas : List String
  parent : String → String
  parentCount : String → Nat
  assoc : String → Bool
  revListExit : Nat
  revListLines : List String
  fetchExit : String → String → Nat
  addRemoteExit : Nat
  checkoutExit : Nat
  cherryPickExit : List String → Nat
  pushExit : Nat
  prStatus : Nat
  prNumber : Nat

/-- The observable trace of one `CherryPick.run` invocation. -/
structure RunResult where
  comments : List (CKind × String)
  fetches : List (String × String)
  checkoutAttempted : Bool
  cherryPicked : Option (List String)
  pushAttempted : Bool
  prCreateAttempted : Bool
  output : Option (Bool × List (String × Bool))
  setFailedMsg : Option String
deriving DecidableEq

/-! ## The Git driver (`src/git.ts`, class `Git`) -/

/-- `Git.fetch` (git.ts:41-62): exit 128 throws `GitRefNotFoundError`, any
other non-zero exit throws a plain `Error`. -/
def Git.fetchExc (exit : Nat) (ref : String) : Except GErr Unit :=
  if exit = 128 then
    .error (.refNotFound ("Expected to fetch '" ++ ref ++ "', but couldn't find it") ref)
  else if exit ≠ 0 then
    .error (.generic ("'git fetch origin " ++ ref ++ "' failed with exit code " ++ toString exit))
  else
    .ok ()

/-- `Git.push` (git.ts:85-101): throws on any non-zero exit code and
returns the exit code (necessarily 0) otherwise. -/
def Git.push (exit : Nat) (remote branchname : String) : Except String Nat :=
  if exit ≠ 0 then
    .error ("'git push --set-upstream " ++ remote ++ " " ++ branchname ++
      "' failed with exit code " ++ toString exit)
  else
    .ok exit

/-- `Git.add_remote` (git.ts:110-130): throws on non-zero exit. -/
def Git.add_remote (exit : Nat) (remote_name repo : String) : Except String Nat :=
  if exit ≠ 0 then
    .error ("'git remote add " ++ remote_name ++ " " ++ repo ++
      "' failed with exit code " ++ toString exit)
  else
    .ok exit

/-- `Git.checkout` (git.ts:132-149): `git switch -c branch remote/start`,
throws on non-zero exit. -/
def Git.checkout (exit : Nat) (branch start remote : String) : Except String Nat :=
  if exit ≠ 0 then
    .error ("'git switch -c " ++ branch ++ " " ++ remote ++ "/" ++ start ++
      "' failed with exit code " ++ toString exit)
  else
    .ok exit

/-- `Git.cherryPick` (git.ts:151-164): throws on non-zero exit (after a
best-effort abort, which has no observable trace here). -/
def Git.cherryPickRun (exit : Nat) (shas : List String) : Except String Nat :=
  if exit ≠ 0 then
    .error ("'git cherry-pick -x " ++ String.intercalate "," shas ++
      "' failed with exit code " ++ toString exit)
  else
    .ok exit

/-- The range string `commitShas[0]^..commitShas[last]` built by
`Git.findMergeCommits`; JavaScript renders an out-of-range index as
`undefined`. -/
def rangeOf (commitShas : List String) : String :=
  commitShas.headD "undefined" ++ "^.." ++ commitShas.getLastD "undefined"

/-- The merge-commit hashes `Git.findMergeCommits` extracts from the
`rev-list` stdout: the lines that are not whitespace-only
(`sha.trim() !== ""`). -/
def mergeCommitList (w : World) : List String :=
  w.revListLines.filter (fun s => s.data.any (fun c => !c.isWhitespace))

/-- `Git.findMergeCommits` (git.ts:64-83): throws on non-zero `rev-list`
exit, otherwise returns the non-blank stdout lines. -/
def Git.findMergeCommits (w : World) (commitShas : List String) : Except String (List String) :=
  if w.revListExit ≠ 0 then
    .error ("'git rev-list --merges " ++ rangeOf commitShas ++
      "' failed with exit code " ++ toString w.revListExit)
  else
    .ok (mergeCommitList w)

/-- The first-parent chain of `n` commits ending at `sha`, oldest first. -/
def commitChain (parent : String → String) : Nat → String → List String
  | 0, _ => []
  | n + 1, sha => commitChain parent n (parent sha) ++ [sha]

/-- Modelled from the spec: `Git.findCommitsInRange` is called by
`CherryPick.run` but its definition is not among the repository files
provided; per the spec (§4.2, `Rebased`) it resolves the range
`sha~n..sha` to "an explicit ordered commit list (oldest first) via
ancestry listing", i.e. the `n` first-parent ancestors ending at `sha`. -/
def Git.findCommitsInRange (parent : String → String) (sha : String) (n : Nat) : List String :=
  commitChain parent n sha

/-! ## The Github client (`src/git.ts`, class `Github`) -/

/-- `Github.isSquashed` (git.ts:337-355): `false` when there is no
merge-commit sha; otherwise `true` exactly when NOT both the merge
commit's first parent and the merge commit itself are associated with the
pull request. -/
def Github.isSquashed (w : World) (pr : PullReq) : Bool :=
  match pr.merge_commit_sha with
  | none => false
  | some sha => !(w.assoc (w.parent sha) && w.assoc sha)

/-- Modelled from the spec: `Github.mergeStrategy` is called by
`CherryPick.run` but its definition is not among the repository files
provided.  Per the spec (§4.2): no merge-commit hash means `Unknown`; a
merge commit with more than one parent is the `MergeCommit` case without
any association check; otherwise the association check of
`Github.isSquashed` separates `Squashed` from `Rebased`. -/
def Github.mergeStrategy (w : World) (pr : PullReq) (mcs : Option String) : MergeStrategy :=
  match mcs with
  | none => .unknown
  | some sha =>
    if 1 < w.parentCount sha then .mergecommit
    else if Github.isSquashed w pr then .squashed
    else .rebased

/-! ## The template engine (`src/utils.ts`) -/

/-- JavaScript's `String.replace(pattern, replacement)` with a string
pattern: replace the first occurrence only; with an empty pattern, insert
the replacement in front. -/
def listReplaceFirst (pat rep : List Char) : List Char → List Char
  | [] => if pat.isPrefixOf ([] : List Char) then rep else []
  | x :: xs =>
    if pat.isPrefixOf (x :: xs) then rep ++ (x :: xs).drop pat.length
    else x :: listReplaceFirst pat rep xs

def String.replaceFirstStr (s pat rep : String) : String :=
  ⟨listReplaceFirst pat.data rep.data s.data⟩

/-- Whether `pat` occurs as a contiguous sublist of `s`. -/
def occursB (pat s : List Char) : Bool :=
  (List.range (s.length + 1)).any (fun i => pat.isPrefixOf (s.drop i))

/-- `replacePlaceholders` (utils.ts:9-24): chained `String.replace` calls,
each substituting only the first occurrence of its token.  The source has
no handling for an `issue_refs` token. -/
def replacePlaceholders (template : String) (main : PullReq)
    (target owner repo : String) : String :=
  ((((((template.replaceFirstStr "${pull_author}" main.user).replaceFirstStr
    "${pull_number}" (toString main.number)).replaceFirstStr
    "${pull_title}" main.title).replaceFirstStr
    "${pull_description}" (main.body.getD "")).replaceFirstStr
    "${target_branch}" target).replaceFirstStr
    "${repo}" repo).replaceFirstStr
    "${owner}" owner

/-! ## The orchestrator (`src/backport.ts`, class `CherryPick`) -/

/-- `composeMessageForFetchTargetFailure` (backport.ts:934-937). -/
def composeMessageForFetchTargetFailure (target : String) : String :=
  "Cherry-pick failed for `" ++ target ++ "`: couldn't find remote ref `" ++ target ++
  "`.\nPlease ensure that this Github repo has a branch named `" ++ target ++ "`."

/-- The numbered reasons of `composeMessageForCherryPickScriptFailure`
(backport.ts:948-956). -/
def scriptFailureReasons : List (Nat × String) :=
  [(1, "due to an unknown script error"),
   (2, "because it was unable to create/access the git worktree directory"),
   (3, "because it was unable to create a new branch"),
   (4, "because it was unable to cherry-pick the commit(s)"),
   (5, "because 1 or more of the commits are not available"),
   (6, "because 1 or more of the commits are not available")]

/-- `composeMessageForCherryPickScriptFailure` (backport.ts:939-975). -/
def composeMessageForCherryPickScriptFailure (target : String) (exitcode : Nat)
    (baseref headref branchname remote upstream_repo : String) : String :=
  let reason := (scriptFailureReasons.lookup exitcode).getD "due to an unknown script error"
  let suggestion :=
    if exitcode ≤ 4 then
      "```bash\ngit remote add " ++ remote ++ " https://github.com/" ++ upstream_repo ++
      "\ngit fetch " ++ remote ++ " " ++ target ++
      "\ngit worktree add -d .worktree/" ++ branchname ++ " " ++ remote ++ "/" ++ target ++
      "\ncd .worktree/" ++ branchname ++
      "\ngit checkout -b " ++ branchname ++
      "\nancref=$(git merge-base " ++ baseref ++ " " ++ headref ++
      ")\ngit cherry-pick -x $ancref.." ++ headref ++ "\n```"
    else "Note that rebase and squash merges are not supported at this time."
  "Cherry-pick failed for `" ++ target ++ "`, " ++ reason ++
  ".\n\nPlease cherry-pick the changes locally.\n" ++ suggestion

/-- `composeMessageForGitPushFailure` (backport.ts:977-984). -/
def composeMessageForGitPushFailure (target : String) (exitcode : Nat) (remote : String) : String :=
  "git push to " ++ remote ++ " failed for " ++ target ++ " with exitcode " ++ toString exitcode

/-- `composeMessageForCreatePRFailed` (backport.ts:986-993). -/
def composeMessageForCreatePRFailed (status : Nat) : String :=
  "Cherry-pick branch created but failed to create PR.\nRequest to create PR rejected with status " ++
  toString status ++ ".\n\n(see action log for full response)"

/-- `composeMessageForSuccess` (backport.ts:995-1002). -/
def composeMessageForSuccess (pr_number : Nat) (target upstream_repo : String) : String :=
  "Successfully created cherry-pick PR for `" ++ target ++ "`:\n- https://github.com/" ++
  upstream_repo ++ "/pull/" ++ toString pr_number

/-- The merge-commit-policy failure comment (backport.ts:631-632). -/
def mergeCommitsFailMsg : String :=
  "Cherry-pick failed because this pull request contains merge commits. " ++
  "You can either cherry-pick this pull request manually, or configure the action to skip merge commits."

/-- `CherryPick.createOutput` (backport.ts:1004-1015) for the single-target
map: `was_successful` is the negation of "some entry is false", and the
per-target breakdown lists the map's entries. -/
def CherryPick.createOutput (target : String) (sbt : Option Bool) : Bool × List (String × Bool) :=
  match sbt with
  | none => (true, [])
  | some b => (b, [(target, b)])

/-- The strategy-dependent commit selection of `CherryPick.run`
(backport.ts:574-616): `SQUASHED` selects the merge-commit hash alone,
`REBASED` the resolved range `sha~commits..sha`, and `MERGECOMMIT`,
`UNKNOWN` and the default branch the pull request's own commit list. -/
def selectCommits (w : World) (pr : PullReq) : List String :=
  match pr.merge_commit_sha, Github.mergeStrategy w pr pr.merge_commit_sha with
  | some sha, .squashed => [sha]
  | some sha, .rebased => Git.findCommitsInRange w.parent sha pr.commits
  | _, _ => w.commitShas

/-- The label gate of `CherryPick.run` (backport.ts:537-552): abort when a
trigger label is configured and no label of the pull request matches it. -/
def labelBlocked (cfg : Config) (pr : PullReq) : Bool :=
  match cfg.trigger_label with
  | some l => !(pr.labels.contains l)
  | none => false

/-- The big per-target `try` block of `CherryPick.run`
(backport.ts:712-888): checkout, cherry-pick, push, PR creation, success
comment; each failure posts a comment, records `false` for the target,
emits the output and returns.  A `Git.push` throw lands in the enclosing
`catch` (backport.ts:868-886), which posts the error message itself. -/
def CherryPick.bigTry (cfg : Config) (pr : PullReq) (w : World) (target : String)
    (picks : List String) (comments0 : List (CKind × String))
    (fetches0 : List (String × String)) (_sbt0 : Option Bool) : RunResult :=
  let branchname := "cherry-pick-" ++ toString pr.number ++ "-to-" ++ target ++ "-to-upstream"
  match Git.checkout w.checkoutExit branchname target "upstream" with
  | .error _ =>
    let msg := composeMessageForCherryPickScriptFailure target 3 pr.baseSha pr.headSha
      branchname "upstream" cfg.upstream_repo
    ⟨comments0 ++ [(.checkoutFail, msg)], fetches0, true, none, false, false,
      some (CherryPick.createOutput target (some false)), none⟩
  | .ok _ =>
    match Git.cherryPickRun (w.cherryPickExit picks) picks with
    | .error _ =>
      let msg := composeMessageForCherryPickScriptFailure target 4 pr.baseSha pr.headSha
        branchname "upstream" cfg.upstream_repo
      ⟨comments0 ++ [(.cherryPickFail, msg)], fetches0, true, some picks, false, false,
        some (CherryPick.createOutput target (some false)), none⟩
    | .ok _ =>
      match Git.push w.pushExit "upstream" branchname with
      | .error emsg =>
        ⟨comments0 ++ [(.catchError, emsg)], fetches0, true, some picks, true, false,
          some (CherryPick.createOutput target (some false)), none⟩
      | .ok code =>
        if code ≠ 0 then
          ⟨comments0 ++ [(.pushFail, composeMessageForGitPushFailure branchname code "upstream")],
            fetches0, true, some picks, true, false,
            some (CherryPick.createOutput target (some false)), none⟩
        else if w.prStatus ≠ 201 then
          ⟨comments0 ++ [(.prCreateFail, composeMessageForCreatePRFailed w.prStatus)],
            fetches0, true, some picks, true, true,
            some (CherryPick.createOutput target (some false)), none⟩
        else
          ⟨comments0 ++ [(.success, composeMessageForSuccess w.prNumber target cfg.upstream_repo)],
            fetches0, true, some picks, true, true,
            some (CherryPick.createOutput target (some true)), none⟩

/-- The two target-branch fetches of `CherryPick.run`
(backport.ts:690-710): a `GitRefNotFoundError` posts a comment and records
`false` but continues — the source `catch` has no `return`, so
`CherryPick.bigTry` still runs; any other error escapes to the top-level
catch (no output).  `c1`/`s1` carry the comments and outcome of the
`add_remote` stage. -/
def CherryPick.afterRemote (cfg : Config) (pr : PullReq) (w : World) (target : String)
    (picks : List String) (c1 : List (CKind × String)) (fetches0 : List (String × String))
    (s1 : Option Bool) : RunResult :=
  match Git.fetchExc (w.fetchExit target "upstream") target with
  | .error (.refNotFound _ r) =>
    CherryPick.bigTry cfg pr w target picks
      (c1 ++ [(.fetchTargetFail, composeMessageForFetchTargetFailure r)])
      (fetches0 ++ [(target, "upstream")]) (some false)
  | .error (.generic m) =>
    ⟨c1, fetches0 ++ [(target, "upstream")], false, none, false, false, none, some m⟩
  | .ok _ =>
    match Git.fetchExc (w.fetchExit target "origin") target with
    | .error (.refNotFound _ r) =>
      CherryPick.bigTry cfg pr w target picks
        (c1 ++ [(.fetchTargetFail, composeMessageForFetchTargetFailure r)])
        (fetches0 ++ [(target, "upstream"), (target, "origin")]) (some false)
    | .error (.generic m) =>
      ⟨c1, fetches0 ++ [(target, "upstream"), (target, "origin")], false, none, false, false,
        none, some m⟩
    | .ok _ =>
      CherryPick.bigTry cfg pr w target picks c1
        (fetches0 ++ [(target, "upstream"), (target, "origin")]) s1

/-- The per-target region of `CherryPick.run` (backport.ts:657-888):
`add_remote` failure posts a comment and records `false` but continues
(no `return` in its catch); then `CherryPick.afterRemote`. -/
def CherryPick.targetAttempt (cfg : Config) (pr : PullReq) (w : World) (target : String)
    (picks : List String) (fetches0 : List (String × String)) : RunResult :=
  match Git.add_remote w.addRemoteExit "upstream" cfg.upstream_repo with
  | .error emsg =>
    CherryPick.afterRemote cfg pr w target picks [(CKind.addRemoteFail, emsg)] fetches0
      (some false)
  | .ok _ =>
    CherryPick.afterRemote cfg pr w target picks [] fetches0 none

/-- `CherryPick.run` from the commit selection on (backport.ts:617-656):
merge-commit detection, the `fail` policy (comment and return, before the
outcome map exists), the `skip` policy (replace the selection with the
pull request's commit list minus the merge commits), then the per-target
attempt. -/
def CherryPick.afterSelect (cfg : Config) (pr : PullReq) (w : World) (target : String)
    (commitShas : List String) (fetches0 : List (String × String)) : RunResult :=
  let picks0 := selectCommits w pr
  match Git.findMergeCommits w commitShas with
  | .error m => ⟨[], fetches0, false, none, false, false, none, some m⟩
  | .ok merges =>
    if 0 < merges.length ∧ cfg.merge_commits = Policy.fail then
      ⟨[(.mergeCommitsPolicy, mergeCommitsFailMsg)], fetches0, false, none, false, false,
        none, none⟩
    else
      let picks :=
        if 0 < merges.length ∧ cfg.merge_commits = Policy.skip then
          commitShas.filter (fun sha => !(merges.contains sha))
        else picks0
      CherryPick.targetAttempt cfg pr w target picks fetches0

/-- The extra fetch of the merge-strategy switch (backport.ts:574-616):
for `SQUASHED` and `REBASED` the merge commit is fetched and pinned to a
remote ref named after its sha; the other strategies fetch nothing. -/
def strategyFetchRef (w : World) (pr : PullReq) : Option String :=
  match pr.merge_commit_sha, Github.mergeStrategy w pr pr.merge_commit_sha with
  | some sha, .squashed => some ("+" ++ sha ++ ":refs/remotes/origin/" ++ sha)
  | some sha, .rebased => some ("+" ++ sha ++ ":refs/remotes/origin/" ++ sha)
  | _, _ => none

/-- `CherryPick.run` (backport.ts:511-900): merged check, label gate,
target resolution through the branch map, head fetch, the merge-strategy
switch with its extra fetch for squash/rebase, then
`CherryPick.afterSelect`.  Failures of those fetches are plain `Error`s
caught only by the top-level catch (`core.setFailed`, no output). -/
def CherryPick.run (cfg : Config) (pr : PullReq) (w : World) : RunResult :=
  if !w.isMerged then
    ⟨[(.notMerged, "Only merged pull requests can be cherry-picked.")], [], false, none,
      false, false, none, none⟩
  else if labelBlocked cfg pr then
    ⟨[], [], false, none, false, false, none, none⟩
  else
    let target := ((cfg.branch_map.lookup pr.baseRef).getD pr.baseRef)
    let headRef := "refs/pull/" ++ toString pr.number ++ "/head"
    match Git.fetchExc (w.fetchExit headRef "origin") headRef with
    | .error e =>
      ⟨[], [(headRef, "origin")], false, none, false, false, none, some e.message⟩
    | .ok _ =>
      match strategyFetchRef w pr with
      | some ref =>
        match Git.fetchExc (w.fetchExit ref "origin") ref with
        | .error e =>
          ⟨[], [(headRef, "origin"), (ref, "origin")], false, none, false, false, none,
            some e.message⟩
        | .ok _ =>
          CherryPick.afterSelect cfg pr w target w.commitShas
            [(headRef, "origin"), (ref, "origin")]
      | none =>
        CherryPick.afterSelect cfg pr w target w.commitShas [(headRef, "origin")]

/-! ## Helper lemmas -/

theorem commitChain_length (parent : String → String) :
    ∀ (n : Nat) (sha : String), (commitChain parent n sha).length = n := by
  intro n
  induction n with
  | zero => intro sha; rfl
  | succ k ih =>
    intro sha
    simp [commitChain, ih]

/-- A convenient base world for concrete scenarios: merged, every external
call succeeds, no merge commits, PR creation returns 201. -/
def baseWorld : World where
  isMerged := true
  commitShas := ["a"]
  parent := fun _ => "p"
  parentCount := fun _ => 1
  assoc := fun _ => true
  revListExit := 0
  revListLines := []
  fetchExit := fun _ _ => 0
  addRemoteExit := 0
  checkoutExit := 0
  cherryPickExit := fun _ => 0
  pushExit := 0
  prStatus := 201
  prNumber := 9

/-- A base pull-request snapshot for concrete scenarios. -/
def basePr : PullReq where
  number := 7
  title := "some pr title"
  body := none
  merge_commit_sha := none
  headSha := "H"
  baseSha := "B"
  baseRef := "main"
  commits := 1
  labels := []
  user := "octocat"

/-- A base configuration for concrete scenarios. -/
def baseCfg : Config where
  pull_title := ""
  pull_description := ""
  merge_commits := Policy.skip
  upstream_repo := "own/rep"
  branch_map := []
  trigger_label := none

/-! ## C1: merge-strategy classification -/

/-- C1: for a merged pull request whose merge commit has exactly one
parent, the classification is `Rebased` when both the merge commit's first
parent and the merge commit itself are associated with the pull request
and `Squashed` otherwise; without a merge-commit hash it is `Unknown`. -/
theorem C1_merge_strategy_classification (w : World) (pr pr2 : PullReq) (s : String)
    (_hmerged : w.isMerged = true)
    (hs : pr.merge_commit_sha = some s)
    (hone : w.parentCount s = 1)
    (hnone : pr2.merge_commit_sha = none) :
    Github.mergeStrategy w pr pr.merge_commit_sha =
      (if w.assoc (w.parent s) && w.assoc s then MergeStrategy.rebased
        else MergeStrategy.squashed)
    ∧ Github.mergeStrategy w pr2 pr2.merge_commit_sha = MergeStrategy.unknown := by
  constructor
  · rw [hs]
    simp only [Github.mergeStrategy, Github.isSquashed, hs, hone]
    cases hab : w.assoc (w.parent s) && w.assoc s <;> simp [hab]
  · rw [hnone]
    rfl

def prC1 : PullReq := { basePr with merge_commit_sha := some "m" }

def prC1none : PullReq := basePr

def wC1 : World := { baseWorld with assoc := fun sha => sha == "m" }

theorem C1_witness :
    Github.mergeStrategy wC1 prC1 prC1.merge_commit_sha =
      (if wC1.assoc (wC1.parent "m") && wC1.assoc "m" then MergeStrategy.rebased
        else MergeStrategy.squashed)
    ∧ Github.mergeStrategy wC1 prC1none prC1none.merge_commit_sha = MergeStrategy.unknown :=
  C1_merge_strategy_classification wC1 prC1 prC1none "m" rfl rfl rfl rfl

/-! ## C2: the replay set selected per strategy -/

/-- C2: before merge-commit filtering, the selected replay set is exactly
the merge-commit hash for `Squashed` (size 1), the resolved range
`sha~N..sha` for `Rebased` (size `N`, the reported commit count), and the
pull request's own commit list for `MergeCommit` and `Unknown` (size equal
to the reported commit count). -/
theorem C2_commit_selection (w : World) (pr : PullReq)
    (hlen : w.commitShas.length = pr.commits) :
    selectCommits w pr =
      (match pr.merge_commit_sha, Github.mergeStrategy w pr pr.merge_commit_sha with
        | some sha, .squashed => [sha]
        | some sha, .rebased => Git.findCommitsInRange w.parent sha pr.commits
        | _, _ => w.commitShas)
    ∧ (selectCommits w pr).length =
      (match pr.merge_commit_sha, Github.mergeStrategy w pr pr.merge_commit_sha with
        | some _, .squashed => 1
        | _, _ => pr.commits) := by
  refine ⟨rfl, ?_⟩
  rcases hm : pr.merge_commit_sha with _ | sha
  · simp [selectCommits, hm, hlen]
  · cases hstrat : Github.mergeStrategy w pr (some sha) <;>
      simp [selectCommits, hm, hstrat, Git.findCommitsInRange, commitChain_length, hlen]

def wC2 : World := { baseWorld with
  commitShas := ["x", "y", "z"]
  parentCount := fun _ => 2 }

def prC2 : PullReq := { basePr with merge_commit_sha := some "m", commits := 3 }

theorem C2_witness :
    selectCommits wC2 prC2 =
      (match prC2.merge_commit_sha, Github.mergeStrategy wC2 prC2 prC2.merge_commit_sha with
        | some sha, .squashed => [sha]
        | some sha, .rebased => Git.findCommitsInRange wC2.parent sha prC2.commits
        | _, _ => wC2.commitShas)
    ∧ (selectCommits wC2 prC2).length =
      (match prC2.merge_commit_sha, Github.mergeStrategy wC2 prC2 prC2.merge_commit_sha with
        | some _, .squashed => 1
        | _, _ => prC2.commits) :=
  C2_commit_selection wC2 prC2 rfl

/-! ## C9: the label gate has no side effects -/

/-- C9: when a trigger label is configured and the merged pull request does
not carry it, the run performs no git fetch, posts no comment and emits no
output. -/
theorem C9_label_gate_silent (cfg : Config) (pr : PullReq) (w : World) (l : String)
    (hm : w.isMerged = true)
    (hl : cfg.trigger_label = some l)
    (hnot : pr.labels.contains l = false) :
    CherryPick.run cfg pr w = ⟨[], [], false, none, false, false, none, none⟩ := by
  have hb : labelBlocked cfg pr = true := by
    unfold labelBlocked
    rw [hl]
    show (!pr.labels.contains l) = true
    rw [hnot]
    rfl
  simp [CherryPick.run, hm, hb]

def cfgC9 : Config := { baseCfg with trigger_label := some "backport" }

def prC9 : PullReq := { basePr with labels := ["bug", "docs"] }

theorem C9_witness :
    CherryPick.run cfgC9 prC9 baseWorld = ⟨[], [], false, none, false, false, none, none⟩ :=
  C9_label_gate_silent cfgC9 prC9 baseWorld "backport" rfl rfl rfl

/-! ## C5: the push driver throws on a non-zero status -/

/-- C5 (code bug): contrary to the specified contract, `Git.push` does not
return a non-zero exit status: it throws.  At exit status 1 the result is
an `Error`, so the orchestrator's `pushExitCode != 0` branch
(backport.ts:775-791) is unreachable. -/
theorem C5_push_throws_on_nonzero :
    Git.push 1 "upstream" "cherry-pick-7-to-main-to-upstream" =
      Except.error
        "'git push --set-upstream upstream cherry-pick-7-to-main-to-upstream' failed with exit code 1"
    ∧ ∀ r b, Git.push 0 r b = Except.ok 0 :=
  ⟨rfl, fun _ _ => rfl⟩

/-! ## C7 and C10: the template engine -/

theorem listReplaceFirst_of_not_occurs (pat rep : List Char) :
    ∀ s : List Char, occursB pat s = false → listReplaceFirst pat rep s = s := by
  intro s
  induction s with
  | nil =>
    intro h
    rw [occursB, List.any_eq_false] at h
    have h0 : pat.isPrefixOf ([] : List Char) = false :=
      Bool.eq_false_iff.mpr (h 0 (by simp))
    simp [listReplaceFirst, h0]
  | cons x xs ih =>
    intro h
    rw [occursB, List.any_eq_false] at h
    have h0 : pat.isPrefixOf (x :: xs) = false :=
      Bool.eq_false_iff.mpr (h 0 (by simp))
    have htail : occursB pat xs = false := by
      rw [occursB, List.any_eq_false]
      intro i hi
      simp only [List.mem_range] at hi
      exact h (i + 1) (by simp only [List.mem_range, List.length_cons]; omega)
    simp [listReplaceFirst, h0, ih htail]

theorem listReplaceFirst_append (pat rep b : List Char) :
    listReplaceFirst pat rep (pat ++ b) = rep ++ b := by
  cases pat with
  | nil =>
    cases b with
    | nil => simp [listReplaceFirst]
    | cons y ys => simp [listReplaceFirst, List.isPrefixOf]
  | cons p ps =>
    have hpre : (p :: ps).isPrefixOf ((p :: ps) ++ b) = true := by
      rw [List.isPrefixOf_iff_prefix]
      exact List.prefix_append _ _
    simp only [List.cons_append] at hpre
    show listReplaceFirst (p :: ps) rep (p :: (ps ++ b)) = rep ++ b
    simp only [listReplaceFirst]
    rw [if_pos hpre]
    simp [List.drop_left]

theorem listReplaceFirst_first_occurrence (pat rep : List Char) :
    ∀ (a b : List Char),
      (∀ i < a.length, pat.isPrefixOf ((a ++ (pat ++ b)).drop i) = false) →
      listReplaceFirst pat rep (a ++ (pat ++ b)) = a ++ (rep ++ b) := by
  intro a
  induction a with
  | nil =>
    intro b _
    simpa using listReplaceFirst_append pat rep b
  | cons x a' ih =>
    intro b h
    have h0 : pat.isPrefixOf (x :: (a' ++ (pat ++ b))) = false := by
      simpa using h 0 (by simp)
    have htail : ∀ i < a'.length, pat.isPrefixOf ((a' ++ (pat ++ b)).drop i) = false := by
      intro i hi
      have := h (i + 1) (by simpa using Nat.succ_lt_succ hi)
      simpa using this
    simp [listReplaceFirst, h0, ih b htail]


/-- The token lists of `replacePlaceholders`, in substitution order. -/
def tokAuthor : List Char := "${pull_author}".data

def tokNumber : List Char := "${pull_number}".data

def tokTitle : List Char := "${pull_title}".data

def tokDescription : List Char := "${pull_description}".data

def tokTargetBranch : List Char := "${target_branch}".data

def tokRepo : List Char := "${repo}".data

def tokOwner : List Char := "${owner}".data

/-- C10: when a known token occurs twice in a template, only the first
occurrence is substituted and the second stays byte-for-byte, here for
`target_branch` as the duplicated token: under the hypotheses that no
other token occurs in the template (or, for the tokens substituted after
`target_branch`, in the partially rendered text) and that the first
`target_branch` occurrence starts at position `a.length`, rendering yields
the prefix, the substituted value, and then the untouched remainder still
containing the literal second token. -/
theorem C10_only_first_occurrence_replaced (a b c : List Char) (main : PullReq)
    (target owner repo : String)
    (h1 : occursB tokAuthor (a ++ (tokTargetBranch ++ (b ++ (tokTargetBranch ++ c)))) = false)
    (h2 : occursB tokNumber (a ++ (tokTargetBranch ++ (b ++ (tokTargetBranch ++ c)))) = false)
    (h3 : occursB tokTitle (a ++ (tokTargetBranch ++ (b ++ (tokTargetBranch ++ c)))) = false)
    (h4 : occursB tokDescription (a ++ (tokTargetBranch ++ (b ++ (tokTargetBranch ++ c)))) = false)
    (h5 : ∀ i < a.length, tokTargetBranch.isPrefixOf
      ((a ++ (tokTargetBranch ++ (b ++ (tokTargetBranch ++ c)))).drop i) = false)
    (h6 : occursB tokRepo (a ++ (target.data ++ (b ++ (tokTargetBranch ++ c)))) = false)
    (h7 : occursB tokOwner (a ++ (target.data ++ (b ++ (tokTargetBranch ++ c)))) = false) :
    (replacePlaceholders ⟨a ++ (tokTargetBranch ++ (b ++ (tokTargetBranch ++ c)))⟩
        main target owner repo).data =
      a ++ (target.data ++ (b ++ (tokTargetBranch ++ c))) := by
  show listReplaceFirst tokOwner owner.data
      (listReplaceFirst tokRepo repo.data
        (listReplaceFirst tokTargetBranch target.data
          (listReplaceFirst tokDescription (main.body.getD "").data
            (listReplaceFirst tokTitle main.title.data
              (listReplaceFirst tokNumber (toString main.number).data
                (listReplaceFirst tokAuthor main.user.data
                  (a ++ (tokTargetBranch ++ (b ++ (tokTargetBranch ++ c)))))))))) =
      a ++ (target.data ++ (b ++ (tokTargetBranch ++ c)))
  rw [listReplaceFirst_of_not_occurs _ _ _ h1]
  rw [listReplaceFirst_of_not_occurs _ _ _ h2]
  rw [listReplaceFirst_of_not_occurs _ _ _ h3]
  rw [listReplaceFirst_of_not_occurs _ _ _ h4]
  rw [listReplaceFirst_first_occurrence _ _ _ _ h5]
  rw [listReplaceFirst_of_not_occurs _ _ _ h6]
  rw [listReplaceFirst_of_not_occurs _ _ _ h7]

theorem C10_witness :
    (replacePlaceholders
        ⟨"Chore: ".data ++ (tokTargetBranch ++
          (" and again ".data ++ (tokTargetBranch ++ " done".data)))⟩
        basePr "release-2" "" "").data =
      "Chore: ".data ++ ("release-2".data ++
        (" and again ".data ++ (tokTargetBranch ++ " done".data))) :=
  C10_only_first_occurrence_replaced "Chore: ".data " and again ".data " done".data
    basePr "release-2" "" "" (by decide) (by decide) (by decide) (by decide)
    (by decide) (by decide) (by decide)

/-- C7 (code bug): `replacePlaceholders` leaves the `issue_refs` token
untouched — the source has no case for it — so a template carrying it
renders to itself (no other token present), not to the issue references
of the pull-request body required by the spec and by the repository's own
test suite (src/test/utils.test.ts). -/
theorem C7_issue_refs_not_replaced :
    replacePlaceholders "Backport that refers to: ${issue_refs}"
        { basePr with
          number := 123
          body := some "This body refers to #123 and foo/bar#456"
          user := "foo-author" }
        "foo-target" "" "" =
      "Backport that refers to: ${issue_refs}"
    ∧ ("Backport that refers to: ${issue_refs}" : String) ≠
      "Backport that refers to: #123 foo/bar#456" := by
  constructor
  · decide
  · decide

/-! ## Trace lemmas for the per-target region -/

/-- Comment kinds that report a failure (everything except the success
comment and the informational not-merged comment). -/
def isFailureKind : CKind → Bool
  | .success => false
  | .notMerged => false
  | _ => true

theorem bigTry_checkoutAttempted (cfg : Config) (pr : PullReq) (w : World) (tgt : String)
    (picks : List String) (c0 : List (CKind × String)) (f0 : List (String × String))
    (s0 : Option Bool) :
    (CherryPick.bigTry cfg pr w tgt picks c0 f0 s0).checkoutAttempted = true := by
  simp only [CherryPick.bigTry]
  split
  · rfl
  · split
    · rfl
    · split
      · rfl
      · split
        · rfl
        · split
          · rfl
          · rfl

theorem bigTry_cherryPicked (cfg : Config) (pr : PullReq) (w : World) (tgt : String)
    (picks : List String) (c0 : List (CKind × String)) (f0 : List (String × String))
    (s0 : Option Bool) :
    (CherryPick.bigTry cfg pr w tgt picks c0 f0 s0).cherryPicked = none
    ∨ (CherryPick.bigTry cfg pr w tgt picks c0 f0 s0).cherryPicked = some picks := by
  simp only [CherryPick.bigTry]
  split
  · exact Or.inl rfl
  · split
    · exact Or.inr rfl
    · split
      · exact Or.inr rfl
      · split
        · exact Or.inr rfl
        · split
          · exact Or.inr rfl
          · exact Or.inr rfl

/-- Every `bigTry` outcome: either some sub-step failed — one failure
comment is appended and the output records `false` for the target — or
everything succeeded, the success comment is appended and the output
records `true`. -/
theorem bigTry_shape (cfg : Config) (pr : PullReq) (w : World) (tgt : String)
    (picks : List String) (c0 : List (CKind × String)) (f0 : List (String × String))
    (s0 : Option Bool) :
    (∃ m, (CherryPick.bigTry cfg pr w tgt picks c0 f0 s0).comments = c0 ++ [m]
      ∧ isFailureKind m.1 = true
      ∧ (CherryPick.bigTry cfg pr w tgt picks c0 f0 s0).output = some (false, [(tgt, false)]))
    ∨ ((CherryPick.bigTry cfg pr w tgt picks c0 f0 s0).comments =
        c0 ++ [(CKind.success, composeMessageForSuccess w.prNumber tgt cfg.upstream_repo)]
      ∧ (CherryPick.bigTry cfg pr w tgt picks c0 f0 s0).output = some (true, [(tgt, true)])) := by
  simp only [CherryPick.bigTry]
  split
  · exact Or.inl ⟨_, rfl, rfl, rfl⟩
  · split
    · exact Or.inl ⟨_, rfl, rfl, rfl⟩
    · split
      · exact Or.inl ⟨_, rfl, rfl, rfl⟩
      · split
        · exact Or.inl ⟨_, rfl, rfl, rfl⟩
        · split
          · exact Or.inl ⟨_, rfl, rfl, rfl⟩
          · exact Or.inr ⟨rfl, rfl⟩

theorem afterRemote_cherryPicked (cfg : Config) (pr : PullReq) (w : World) (tgt : String)
    (picks : List String) (c1 : List (CKind × String)) (f0 : List (String × String))
    (s1 : Option Bool) :
    (CherryPick.afterRemote cfg pr w tgt picks c1 f0 s1).cherryPicked = none
    ∨ (CherryPick.afterRemote cfg pr w tgt picks c1 f0 s1).cherryPicked = some picks := by
  simp only [CherryPick.afterRemote]
  split
  · exact bigTry_cherryPicked ..
  · exact Or.inl rfl
  · split
    · exact bigTry_cherryPicked ..
    · exact Or.inl rfl
    · exact bigTry_cherryPicked ..

theorem targetAttempt_cherryPicked (cfg : Config) (pr : PullReq) (w : World) (tgt : String)
    (picks : List String) (f0 : List (String × String)) :
    (CherryPick.targetAttempt cfg pr w tgt picks f0).cherryPicked = none
    ∨ (CherryPick.targetAttempt cfg pr w tgt picks f0).cherryPicked = some picks := by
  simp only [CherryPick.targetAttempt]
  split
  · exact afterRemote_cherryPicked ..
  · exact afterRemote_cherryPicked ..

theorem bigTry_false_output_comment (cfg : Config) (pr : PullReq) (w : World)
    (tgt : String) (picks : List String) (c0 : List (CKind × String))
    (f0 : List (String × String)) (s0 : Option Bool) (bb : Bool) (t : String)
    (entries : List (String × Bool))
    (h : (CherryPick.bigTry cfg pr w tgt picks c0 f0 s0).output = some (bb, entries))
    (ht : (t, false) ∈ entries) :
    (CherryPick.bigTry cfg pr w tgt picks c0 f0 s0).comments.any
      (fun c => isFailureKind c.1) = true := by
  rcases bigTry_shape cfg pr w tgt picks c0 f0 s0 with ⟨m, hcom, hf, hout⟩ | ⟨hcom, hout⟩
  · rw [hcom, List.any_append]
    simp [hf]
  · rw [hout, Option.some.injEq] at h
    have hentries : entries = [(tgt, true)] := (congrArg Prod.snd h).symm
    rw [hentries] at ht
    simp at ht

theorem afterRemote_false_output_comment (cfg : Config) (pr : PullReq) (w : World)
    (tgt : String) (picks : List String) (c1 : List (CKind × String))
    (f0 : List (String × String)) (s1 : Option Bool) (bb : Bool) (t : String)
    (entries : List (String × Bool))
    (h : (CherryPick.afterRemote cfg pr w tgt picks c1 f0 s1).output = some (bb, entries))
    (ht : (t, false) ∈ entries) :
    (CherryPick.afterRemote cfg pr w tgt picks c1 f0 s1).comments.any
      (fun c => isFailureKind c.1) = true := by
  rcases hu : Git.fetchExc (w.fetchExit tgt "upstream") tgt with e | u
  case ok =>
    rcases ho : Git.fetchExc (w.fetchExit tgt "origin") tgt with e2 | u2
    case ok =>
      simp only [CherryPick.afterRemote, hu, ho] at h ⊢
      exact bigTry_false_output_comment cfg pr w tgt picks _ _ _ bb t entries h ht
    case error =>
      rcases e2 with ⟨ms, r⟩ | m
      · simp only [CherryPick.afterRemote, hu, ho] at h ⊢
        exact bigTry_false_output_comment cfg pr w tgt picks _ _ _ bb t entries h ht
      · simp only [CherryPick.afterRemote, hu, ho] at h
        exact absurd h (by simp)
  case error =>
    rcases e with ⟨ms, r⟩ | m
    · simp only [CherryPick.afterRemote, hu] at h ⊢
      exact bigTry_false_output_comment cfg pr w tgt picks _ _ _ bb t entries h ht
    · simp only [CherryPick.afterRemote, hu] at h
      exact absurd h (by simp)

theorem targetAttempt_false_output_comment (cfg : Config) (pr : PullReq) (w : World)
    (tgt : String) (picks : List String) (f0 : List (String × String)) (bb : Bool)
    (t : String) (entries : List (String × Bool))
    (h : (CherryPick.targetAttempt cfg pr w tgt picks f0).output = some (bb, entries))
    (ht : (t, false) ∈ entries) :
    (CherryPick.targetAttempt cfg pr w tgt picks f0).comments.any
      (fun c => isFailureKind c.1) = true := by
  rcases ha : Git.add_remote w.addRemoteExit "upstream" cfg.upstream_repo with e | u
  · simp only [CherryPick.targetAttempt, ha] at h ⊢
    exact afterRemote_false_output_comment cfg pr w tgt picks _ f0 _ bb t entries h ht
  · simp only [CherryPick.targetAttempt, ha] at h ⊢
    exact afterRemote_false_output_comment cfg pr w tgt picks _ f0 _ bb t entries h ht

theorem afterSelect_false_output_comment (cfg : Config) (pr : PullReq) (w : World)
    (tgt : String) (cs : List String) (f0 : List (String × String)) (bb : Bool)
    (t : String) (entries : List (String × Bool))
    (h : (CherryPick.afterSelect cfg pr w tgt cs f0).output = some (bb, entries))
    (ht : (t, false) ∈ entries) :
    (CherryPick.afterSelect cfg pr w tgt cs f0).comments.any
      (fun c => isFailureKind c.1) = true := by
  rcases hfm : Git.findMergeCommits w cs with m | merges
  · simp only [CherryPick.afterSelect, hfm] at h
    exact absurd h (by simp)
  · by_cases hc : 0 < merges.length ∧ cfg.merge_commits = Policy.fail
    · simp only [CherryPick.afterSelect, hfm, if_pos hc] at h
      exact absurd h (by simp)
    · simp only [CherryPick.afterSelect, hfm, if_neg hc] at h ⊢
      exact targetAttempt_false_output_comment cfg pr w tgt _ f0 bb t entries h ht

/-- C8 amended, direction that holds: whenever the emitted output records
`false` for a target, at least one failure comment was posted during the
run. -/
theorem C8_false_output_has_failure_comment (cfg : Config) (pr : PullReq) (w : World)
    (bb : Bool) (t : String) (entries : List (String × Bool))
    (h : (CherryPick.run cfg pr w).output = some (bb, entries))
    (ht : (t, false) ∈ entries) :
    (CherryPick.run cfg pr w).comments.any (fun c => isFailureKind c.1) = true := by
  cases hm : w.isMerged
  · simp only [CherryPick.run, hm] at h
    exact absurd h (by simp)
  · cases hlb : labelBlocked cfg pr
    · rcases hfe : Git.fetchExc
        (w.fetchExit ("refs/pull/" ++ toString pr.number ++ "/head") "origin")
        ("refs/pull/" ++ toString pr.number ++ "/head") with e | u
      · simp only [CherryPick.run, hm, hlb, hfe] at h
        exact absurd h (by simp)
      · rcases hsf : strategyFetchRef w pr with _ | ref
        · simp only [CherryPick.run, hm, hlb, hfe, hsf] at h ⊢
          exact afterSelect_false_output_comment cfg pr w _ _ _ bb t entries h ht
        · rcases hfe2 : Git.fetchExc (w.fetchExit ref "origin") ref with e2 | u2
          · simp only [CherryPick.run, hm, hlb, hfe, hsf, hfe2] at h
            exact absurd h (by simp)
          · simp only [CherryPick.run, hm, hlb, hfe, hsf, hfe2] at h ⊢
            exact afterSelect_false_output_comment cfg pr w _ _ _ bb t entries h ht
    · simp only [CherryPick.run, hm, hlb] at h
      exact absurd h (by simp)

theorem length_filter_not_add_countP (l : List String) (c : String → Bool) :
    (l.filter (fun s => !(c s))).length + l.countP c = l.length := by
  rw [← List.countP_eq_length_filter]
  induction l with
  | nil => rfl
  | cons x xs ih =>
    rw [List.countP_cons, List.countP_cons, List.length_cons]
    cases hx : c x <;> simp [hx] <;> omega

/-! ## C3: the `skip` policy replaces the replay set -/

theorem afterSelect_skip_cherryPicked (cfg : Config) (pr : PullReq) (w : World)
    (tgt : String) (cs : List String) (f0 : List (String × String)) (l : List String)
    (hpol : cfg.merge_commits = Policy.skip)
    (hmg : mergeCommitList w ≠ [])
    (hcp : (CherryPick.afterSelect cfg pr w tgt cs f0).cherryPicked = some l) :
    l = cs.filter (fun sha => !((mergeCommitList w).contains sha)) := by
  rcases hfm : Git.findMergeCommits w cs with m | merges
  · simp only [CherryPick.afterSelect, hfm] at hcp
    exact absurd hcp (by simp)
  · have hmerges : merges = mergeCommitList w := by
      unfold Git.findMergeCommits at hfm
      by_cases hrv : w.revListExit ≠ 0
      · rw [if_pos hrv] at hfm
        exact absurd hfm (by simp)
      · rw [if_neg hrv] at hfm
        exact ((Except.ok.injEq _ _).mp hfm).symm
    subst hmerges
    have hcond_fail : ¬(0 < (mergeCommitList w).length ∧ cfg.merge_commits = Policy.fail) := by
      rintro ⟨-, hfaileq⟩
      rw [hpol] at hfaileq
      exact Policy.noConfusion hfaileq
    have hcond_skip : 0 < (mergeCommitList w).length ∧ cfg.merge_commits = Policy.skip :=
      ⟨List.length_pos.mpr hmg, hpol⟩
    simp only [CherryPick.afterSelect, hfm, if_neg hcond_fail, if_pos hcond_skip] at hcp
    rcases targetAttempt_cherryPicked cfg pr w tgt
        (cs.filter fun sha => !((mergeCommitList w).contains sha)) f0 with hnone | hsome
    · rw [hnone] at hcp
      exact absurd hcp (by simp)
    · rw [hsome] at hcp
      exact ((Option.some.injEq _ _).mp hcp).symm

/-- C3 amended: with policy `skip` and at least one detected merge commit,
the commits actually passed to cherry-pick are the pull request's own
commit list with the merge commits removed, in their original relative
order — this replaces whatever the strategy switch had selected.  The
count identity specialises to "five commits, two of them merges, three
passed". -/
theorem C3_skip_filters_pr_commits (cfg : Config) (pr : PullReq) (w : World)
    (l : List String)
    (hpol : cfg.merge_commits = Policy.skip)
    (hmg : mergeCommitList w ≠ [])
    (hcp : (CherryPick.run cfg pr w).cherryPicked = some l) :
    l = w.commitShas.filter (fun sha => !((mergeCommitList w).contains sha))
    ∧ l.Sublist w.commitShas
    ∧ l.length + w.commitShas.countP (fun sha => (mergeCommitList w).contains sha)
        = w.commitShas.length := by
  have hl : l = w.commitShas.filter (fun sha => !((mergeCommitList w).contains sha)) := by
    cases hm : w.isMerged
    · simp only [CherryPick.run, hm] at hcp
      exact absurd hcp (by simp)
    · cases hlb : labelBlocked cfg pr
      · rcases hfe : Git.fetchExc
          (w.fetchExit ("refs/pull/" ++ toString pr.number ++ "/head") "origin")
          ("refs/pull/" ++ toString pr.number ++ "/head") with e | u
        · simp only [CherryPick.run, hm, hlb, hfe] at hcp
          exact absurd hcp (by simp)
        · rcases hsf : strategyFetchRef w pr with _ | ref
          · simp only [CherryPick.run, hm, hlb, hfe, hsf] at hcp
            exact afterSelect_skip_cherryPicked cfg pr w _ _ _ l hpol hmg hcp
          · rcases hfe2 : Git.fetchExc (w.fetchExit ref "origin") ref with e2 | u2
            · simp only [CherryPick.run, hm, hlb, hfe, hsf, hfe2] at hcp
              exact absurd hcp (by simp)
            · simp only [CherryPick.run, hm, hlb, hfe, hsf, hfe2] at hcp
              exact afterSelect_skip_cherryPicked cfg pr w _ _ _ l hpol hmg hcp
      · simp only [CherryPick.run, hm, hlb] at hcp
        exact absurd hcp (by simp)
  refine ⟨hl, ?_, ?_⟩
  · rw [hl]
    exact List.filter_sublist _
  · rw [hl]
    exact length_filter_not_add_countP _ _

/-! ## C4: the `fail` policy stops before any attempt, with no output -/

theorem afterSelect_policy_fail (cfg : Config) (pr : PullReq) (w : World)
    (tgt : String) (cs : List String) (f0 : List (String × String))
    (hrv : w.revListExit = 0)
    (hmg : mergeCommitList w ≠ [])
    (hpol : cfg.merge_commits = Policy.fail) :
    CherryPick.afterSelect cfg pr w tgt cs f0 =
      ⟨[(CKind.mergeCommitsPolicy, mergeCommitsFailMsg)], f0, false, none, false, false,
        none, none⟩ := by
  have hok : Git.findMergeCommits w cs = .ok (mergeCommitList w) := by
    unfold Git.findMergeCommits
    rw [if_neg (by simp [hrv])]
  have hcond : 0 < (mergeCommitList w).length ∧ cfg.merge_commits = Policy.fail :=
    ⟨List.length_pos.mpr hmg, hpol⟩
  simp only [CherryPick.afterSelect, hok, if_pos hcond]

/-- C4 amended: with policy `fail` and at least one detected merge commit,
the run posts only the explanatory comment and stops before the per-target
attempt — no branch creation, no cherry-pick, no push, no PR creation —
and NO output is emitted at all (the source returns before the outcome map
is created, so neither `was_successful` nor the per-target breakdown is
set). -/
theorem C4_policy_fail_no_attempt_no_output (cfg : Config) (pr : PullReq) (w : World)
    (hm : w.isMerged = true)
    (hlab : labelBlocked cfg pr = false)
    (hf : ∀ r m, w.fetchExit r m = 0)
    (hrv : w.revListExit = 0)
    (hmg : mergeCommitList w ≠ [])
    (hpol : cfg.merge_commits = Policy.fail) :
    (CherryPick.run cfg pr w).comments = [(CKind.mergeCommitsPolicy, mergeCommitsFailMsg)]
    ∧ (CherryPick.run cfg pr w).cherryPicked = none
    ∧ (CherryPick.run cfg pr w).checkoutAttempted = false
    ∧ (CherryPick.run cfg pr w).pushAttempted = false
    ∧ (CherryPick.run cfg pr w).prCreateAttempted = false
    ∧ (CherryPick.run cfg pr w).output = none := by
  have hfe : Git.fetchExc
      (w.fetchExit ("refs/pull/" ++ toString pr.number ++ "/head") "origin")
      ("refs/pull/" ++ toString pr.number ++ "/head") = .ok () := by
    rw [hf]
    rfl
  obtain ⟨f0, hrun⟩ : ∃ f0, CherryPick.run cfg pr w =
      CherryPick.afterSelect cfg pr w ((cfg.branch_map.lookup pr.baseRef).getD pr.baseRef)
        w.commitShas f0 := by
    rcases hsf : strategyFetchRef w pr with _ | ref
    · exact ⟨[("refs/pull/" ++ toString pr.number ++ "/head", "origin")],
        by simp only [CherryPick.run, hm, hlab, hfe, hsf, Bool.not_true,
          Bool.false_eq_true, if_false]⟩
    · have hfe2 : Git.fetchExc (w.fetchExit ref "origin") ref = .ok () := by
        rw [hf]
        rfl
      exact ⟨[("refs/pull/" ++ toString pr.number ++ "/head", "origin"), (ref, "origin")],
        by simp only [CherryPick.run, hm, hlab, hfe, hsf, hfe2, Bool.not_true,
          Bool.false_eq_true, if_false]⟩
  rw [hrun, afterSelect_policy_fail cfg pr w _ _ _ hrv hmg hpol]
  exact ⟨rfl, rfl, rfl, rfl, rfl, rfl⟩

/-! ## C6: which sub-step failures stop the target -/

/-- C6 amended: branch creation, cherry-pick, push and PR creation each
stop the target when they fail — later sub-steps are skipped and the
output records `false` — but a target-branch fetch failure does NOT stop
the target: its `catch` posts the comment and records `false` without
returning, so the checkout sub-step (and everything after it) still
runs. -/
theorem C6_substep_failure_stops_target (cfg : Config) (pr : PullReq) (tgt : String)
    (picks : List String) (c0 : List (CKind × String)) (f0 : List (String × String))
    (s0 : Option Bool) (w1 w2 w3 w4 w5 : World)
    (h1 : w1.checkoutExit ≠ 0)
    (h2c : w2.checkoutExit = 0) (h2 : w2.cherryPickExit picks ≠ 0)
    (h3c : w3.checkoutExit = 0) (h3cp : w3.cherryPickExit picks = 0) (h3 : w3.pushExit ≠ 0)
    (h4c : w4.checkoutExit = 0) (h4cp : w4.cherryPickExit picks = 0) (h4p : w4.pushExit = 0)
    (h4 : w4.prStatus ≠ 201)
    (h5a : w5.addRemoteExit = 0) (h5 : w5.fetchExit tgt "upstream" = 128) :
    ((CherryPick.bigTry cfg pr w1 tgt picks c0 f0 s0).cherryPicked = none
      ∧ (CherryPick.bigTry cfg pr w1 tgt picks c0 f0 s0).pushAttempted = false
      ∧ (CherryPick.bigTry cfg pr w1 tgt picks c0 f0 s0).prCreateAttempted = false
      ∧ (CherryPick.bigTry cfg pr w1 tgt picks c0 f0 s0).output = some (false, [(tgt, false)]))
    ∧ ((CherryPick.bigTry cfg pr w2 tgt picks c0 f0 s0).pushAttempted = false
      ∧ (CherryPick.bigTry cfg pr w2 tgt picks c0 f0 s0).prCreateAttempted = false
      ∧ (CherryPick.bigTry cfg pr w2 tgt picks c0 f0 s0).output = some (false, [(tgt, false)]))
    ∧ ((CherryPick.bigTry cfg pr w3 tgt picks c0 f0 s0).prCreateAttempted = false
      ∧ (CherryPick.bigTry cfg pr w3 tgt picks c0 f0 s0).output = some (false, [(tgt, false)]))
    ∧ ((CherryPick.bigTry cfg pr w4 tgt picks c0 f0 s0).output = some (false, [(tgt, false)])
      ∧ (CherryPick.bigTry cfg pr w4 tgt picks c0 f0 s0).comments =
          c0 ++ [(CKind.prCreateFail, composeMessageForCreatePRFailed w4.prStatus)])
    ∧ (CherryPick.targetAttempt cfg pr w5 tgt picks f0).checkoutAttempted = true := by
  refine ⟨⟨?_, ?_, ?_, ?_⟩, ⟨?_, ?_, ?_⟩, ⟨?_, ?_⟩, ⟨?_, ?_⟩, ?_⟩
  all_goals first
    | (simp only [CherryPick.bigTry, CherryPick.createOutput, Git.checkout, if_pos h1]
       done)
    | (simp only [CherryPick.bigTry, CherryPick.createOutput, Git.checkout,
        Git.cherryPickRun, h2c, if_pos h2, ne_eq, not_true_eq_false, if_false, reduceIte]
       done)
    | (simp only [CherryPick.bigTry, CherryPick.createOutput, Git.checkout,
        Git.cherryPickRun, Git.push, h3c, h3cp, if_pos h3, ne_eq, not_true_eq_false,
        if_false, reduceIte]
       done)
    | (simp only [CherryPick.bigTry, CherryPick.createOutput, Git.checkout,
        Git.cherryPickRun, Git.push, h4c, h4cp, h4p, if_pos h4, ne_eq, not_true_eq_false,
        if_false, reduceIte]
       done)
    | (simp only [CherryPick.targetAttempt, Git.add_remote, h5a, CherryPick.afterRemote,
        Git.fetchExc, h5, ne_eq, not_true_eq_false, if_false, reduceIte]
       exact bigTry_checkoutAttempted ..)

/-! ## Concrete scenarios -/

/-- A run in which the fetch of the target branch from `origin` fails with
exit 128 (ref not found) while everything else succeeds. -/
def wCex : World := { baseWorld with
  fetchExit := fun ref remote => if remote == "origin" && ref == "main" then 128 else 0 }

/-- C6 counterexample: the claim says a target-branch fetch failure
prevents the later checkout, cherry-pick, push and PR-creation sub-steps;
in this run the origin fetch of the target branch fails (a fetch-failure
comment is posted), yet checkout, cherry-pick, push and PR creation all
still run and the run even ends in success. -/
theorem C6_counterexample :
    (CherryPick.run baseCfg basePr wCex).comments.map Prod.fst =
      [CKind.fetchTargetFail, CKind.success]
    ∧ (CherryPick.run baseCfg basePr wCex).checkoutAttempted = true
    ∧ (CherryPick.run baseCfg basePr wCex).cherryPicked = some ["a"]
    ∧ (CherryPick.run baseCfg basePr wCex).pushAttempted = true
    ∧ (CherryPick.run baseCfg basePr wCex).prCreateAttempted = true := by
  refine ⟨?_, ?_, ?_, ?_, ?_⟩ <;> decide

/-- C8 counterexample: the same run posts a failure comment (for the
failed target-branch fetch) and yet ends with the output recording the
target as successful — the two channels disagree. -/
theorem C8_counterexample :
    (CherryPick.run baseCfg basePr wCex).output = some (true, [("main", true)])
    ∧ (CherryPick.run baseCfg basePr wCex).comments.any
        (fun c => isFailureKind c.1) = true := by
  refine ⟨?_, ?_⟩ <;> decide

/-- A run whose checkout fails, so the output records `false`. -/
def wCheckoutFail : World := { baseWorld with checkoutExit := 1 }

theorem C8_witness :
    (CherryPick.run baseCfg basePr wCheckoutFail).comments.any
      (fun c => isFailureKind c.1) = true :=
  C8_false_output_has_failure_comment baseCfg basePr wCheckoutFail false "main"
    [("main", false)] (by decide) (by decide)

def w6checkout : World := wCheckoutFail

def w6cherry : World := { baseWorld with cherryPickExit := fun _ => 1 }

def w6push : World := { baseWorld with pushExit := 1 }

def w6pr : World := { baseWorld with prStatus := 422 }

def w6fetch : World := { baseWorld with
  fetchExit := fun _ remote => if remote == "upstream" then 128 else 0 }

theorem C6_witness :
    ((CherryPick.bigTry baseCfg basePr w6checkout "main" ["a"] [] [] none).cherryPicked = none
      ∧ (CherryPick.bigTry baseCfg basePr w6checkout "main" ["a"] [] [] none).pushAttempted = false
      ∧ (CherryPick.bigTry baseCfg basePr w6checkout "main" ["a"] [] [] none).prCreateAttempted = false
      ∧ (CherryPick.bigTry baseCfg basePr w6checkout "main" ["a"] [] [] none).output =
          some (false, [("main", false)]))
    ∧ ((CherryPick.bigTry baseCfg basePr w6cherry "main" ["a"] [] [] none).pushAttempted = false
      ∧ (CherryPick.bigTry baseCfg basePr w6cherry "main" ["a"] [] [] none).prCreateAttempted = false
      ∧ (CherryPick.bigTry baseCfg basePr w6cherry "main" ["a"] [] [] none).output =
          some (false, [("main", false)]))
    ∧ ((CherryPick.bigTry baseCfg basePr w6push "main" ["a"] [] [] none).prCreateAttempted = false
      ∧ (CherryPick.bigTry baseCfg basePr w6push "main" ["a"] [] [] none).output =
          some (false, [("main", false)]))
    ∧ ((CherryPick.bigTry baseCfg basePr w6pr "main" ["a"] [] [] none).output =
          some (false, [("main", false)])
      ∧ (CherryPick.bigTry baseCfg basePr w6pr "main" ["a"] [] [] none).comments =
          [] ++ [(CKind.prCreateFail, composeMessageForCreatePRFailed w6pr.prStatus)])
    ∧ (CherryPick.targetAttempt baseCfg basePr w6fetch "main" ["a"] []).checkoutAttempted = true :=
  C6_substep_failure_stops_target baseCfg basePr "main" ["a"] [] [] none
    w6checkout w6cherry w6push w6pr w6fetch
    (by decide) (by decide) (by decide) (by decide) (by decide) (by decide)
    (by decide) (by decide) (by decide) (by decide) (by decide) (by decide)

/-- A pull request with a merge commit (`"m"`) among its two commits. -/
def wMerges : World := { baseWorld with
  commitShas := ["a", "m"]
  revListLines := ["m"] }

theorem C3_witness :
    ["a"] = wMerges.commitShas.filter
        (fun sha => !((mergeCommitList wMerges).contains sha))
    ∧ List.Sublist ["a"] wMerges.commitShas
    ∧ (["a"] : List String).length +
        wMerges.commitShas.countP (fun sha => (mergeCommitList wMerges).contains sha)
        = wMerges.commitShas.length :=
  C3_skip_filters_pr_commits baseCfg basePr wMerges ["a"] rfl (by decide) (by decide)

/-- A squash-merged pull request (one-parent merge commit `"S"` not
associated with the pull request) whose own commit list contains a merge
commit `"m"`. -/
def wC3 : World := { baseWorld with
  commitShas := ["a", "m"]
  revListLines := ["m"]
  assoc := fun _ => false }

def prC3 : PullReq := { basePr with merge_commit_sha := some "S", commits := 2 }

/-- C3 counterexample: with policy `skip` and strategy `Squashed`, the
replay set selected by the strategy switch is `["S"]` (the squash commit),
but the commits actually passed to cherry-pick are `["a"]` — the pull
request's commit list minus its merge commits — not the replay set minus
its merge commits (`["S"]` contains none). -/
theorem C3_counterexample :
    selectCommits wC3 prC3 = ["S"]
    ∧ (CherryPick.run baseCfg prC3 wC3).cherryPicked = some ["a"]
    ∧ (CherryPick.run baseCfg prC3 wC3).cherryPicked ≠
        some ((selectCommits wC3 prC3).filter
          (fun sha => !((mergeCommitList wC3).contains sha))) := by
  refine ⟨?_, ?_, ?_⟩ <;> decide

def cfgC4 : Config := { baseCfg with merge_commits := Policy.fail }

/-- C4 counterexample: with policy `fail` and a detected merge commit, no
cherry-pick is attempted and the explanatory comment is posted — but the
per-target outcome is NOT reported as `false`: the run returns before the
outcome map exists, so no output is emitted at all. -/
theorem C4_counterexample :
    (CherryPick.run cfgC4 basePr wMerges).output = none
    ∧ (CherryPick.run cfgC4 basePr wMerges).cherryPicked = none
    ∧ (CherryPick.run cfgC4 basePr wMerges).checkoutAttempted = false
    ∧ (CherryPick.run cfgC4 basePr wMerges).comments.map Prod.fst =
        [CKind.mergeCommitsPolicy]
    ∧ (CherryPick.run cfgC4 basePr wMerges).output ≠ some (false, [("main", false)]) := by
  refine ⟨?_, ?_, ?_, ?_, ?_⟩ <;> decide

theorem C4_witness :
    (CherryPick.run cfgC4 basePr wMerges).comments =
      [(CKind.mergeCommitsPolicy, mergeCommitsFailMsg)]
    ∧ (CherryPick.run cfgC4 basePr wMerges).cherryPicked = none
    ∧ (CherryPick.run cfgC4 basePr wMerges).checkoutAttempted = false
    ∧ (CherryPick.run cfgC4 basePr wMerges).pushAttempted = false
    ∧ (CherryPick.run cfgC4 basePr wMerges).prCreateAttempted = false
    ∧ (CherryPick.run cfgC4 basePr wMerges).output = none :=
  C4_policy_fail_no_attempt_no_output cfgC4 basePr wMerges rfl rfl
    (fun _ _ => rfl) rfl (by decide) rfl
